import Mathlib

/-!
Verification development for the biodb-analyzer schema-validated analysis
cache: a shallow embedding, in Lean 4, of the confidence scorer, schema
validator, schema serialization/hashing and persistent analysis cache of
`src/biodb_analyzer/ai/{ollama,schema_validator,cache}.py`, together with
theorems settling the specified properties.

Modelling conventions:
* Python `float` arithmetic on the small decimal policy constants involved
  (0.9, 0.95, sizes in MiB) is modelled exactly over `ℚ`.
* Python `str` containment (`a in b`) is contiguous-substring containment,
  modelled on the character lists.
* `hashlib.sha256(s.encode()).hexdigest()` is modelled as an injective
  function of the message; the digest value is represented by the message
  string itself (the development never relies on digest length or format,
  only on equality/inequality of digests, which for SHA-256 coincides with
  equality of messages up to negligible collision probability).
* Timestamps (`time.time()`, `st_mtime`, `st_atime`) are modelled as `Int`
  seconds, file sizes (`st_size`) as `Nat` bytes.
-/

set_option maxRecDepth 10000

namespace BiodbAnalyzer

/-- Python `min(a, b)`: returns `a` when `a <= b`, else `b`. -/
def pyMin (a b : ℚ) : ℚ := if a ≤ b then a else b

/-- Python `max(a, b)`: returns `a` when `b <= a`, else `b`. -/
def pyMax (a b : ℚ) : ℚ := if b ≤ a then a else b

/-- Contiguous-sublist containment on character lists. -/
def charsIn (needle : List Char) : List Char → Bool
  | [] => needle.isEmpty
  | c :: cs => needle.isPrefixOf (c :: cs) || charsIn needle cs

/-- Python substring containment: `needle in hay` for `str`. -/
def pyIn (needle hay : String) : Bool :=
  charsIn needle.data hay.data

/-- Python `str.lower()`, on the character data (ASCII case folding). -/
def pyLower (s : String) : String :=
  ⟨s.data.map Char.toLower⟩

/-- One table of the loaded schema, as `SchemaValidator._load_schema` builds it:
`schema['tables'][name] = \x7b'columns': \x7bcol name → type name\x7d, 'primary_key': [...]\x7d`.
The association lists keep the enumeration (insertion) order of the Python dicts. -/
structure SchemaTable where
  name : String
  columns : List (String × String)
  primaryKey : List String
deriving DecidableEq, Repr

/-- `OllamaAnalyzer._count_schema_references` (ollama.py lines 367-391): one
point for each known table whose name occurs case-insensitively as a substring
of the response, plus one point for each known `table.column` pair occurring
case-insensitively as a substring.  Each schema element is counted at most
once, regardless of how many times it occurs in the text. -/
def countSchemaReferences (tables : List SchemaTable) (response : String) : Nat :=
  let count := tables.foldl
    (fun count t => if pyIn (pyLower t.name) (pyLower response) then count + 1 else count) 0
  tables.foldl
    (fun count t =>
      t.columns.foldl
        (fun count col =>
          if pyIn (pyLower (t.name ++ "." ++ col.1)) (pyLower response) then count + 1
          else count)
        count)
    count

/-- The arithmetic tail of the first (schema-reference-counting)
`OllamaAnalyzer._calculate_confidence` (ollama.py lines 354-365):
`confidence = min(1.0, refs / 10)`, times `0.9` in strict mode, then
`max(0.0, confidence)`.  In the source this tail is dead code: it sits behind
`self.ollama_config.get_validation_config()` (line 353), an attribute
`OllamaConfig` never defines, so the function raises `AttributeError` before
reaching it (see `calcConfidenceMethodV1`).  The tail is modelled faithfully
on its own, parameterized by the `strict_mode` value the config read would
have produced, solely to compare the claimed scoring formula with the
arithmetic the source encodes. -/
def calcConfidenceTail (strictMode : Bool) (tables : List SchemaTable) (response : String) : ℚ :=
  let refs := countSchemaReferences tables response
  let confidence : ℚ := pyMin 1 ((refs : ℚ) / 10)
  let confidence := if strictMode then confidence * (9 / 10) else confidence
  pyMax 0 confidence

/-- Distinct table names present in the response (spec-side reformulation used
to state what `countSchemaReferences` actually counts). -/
def distinctTableRefs (tables : List SchemaTable) (response : String) : Nat :=
  tables.countP (fun t => pyIn (pyLower t.name) (pyLower response))

/-- Distinct `table.column` pairs present in the response. -/
def distinctPairRefs (tables : List SchemaTable) (response : String) : Nat :=
  (tables.map (fun t =>
    t.columns.countP (fun col => pyIn (pyLower (t.name ++ "." ++ col.1)) (pyLower response)))).sum

/-- The `genes(id, name)`, `samples(id, gene_id)` schema of the spec's worked
scenario. -/
def genesSamplesTables : List SchemaTable :=
  [⟨"genes", [("id", "INTEGER"), ("name", "TEXT")], ["id"]⟩,
   ⟨"samples", [("id", "INTEGER"), ("gene_id", "INTEGER")], ["id"]⟩]

/-- A generated text mentioning `genes` and `samples` 12 times in total. -/
def twelveMentions : String :=
  "genes samples genes samples genes samples genes samples genes samples genes samples"

/-- Helper for Python `str.split()`: accumulates the current word (reversed)
while scanning the character list; whitespace runs produce no empty words. -/
def wordsAux : List Char → List Char → List String
  | cur, [] => if cur.isEmpty then [] else [String.mk cur.reverse]
  | cur, c :: cs =>
    if c.isWhitespace then
      if cur.isEmpty then wordsAux [] cs
      else String.mk cur.reverse :: wordsAux [] cs
    else wordsAux (c :: cur) cs

/-- Python `str.split()` with no argument: words separated by whitespace runs. -/
def pyWords (s : String) : List String := wordsAux [] s.data

/-- `SchemaValidator._extract_tables_from_analysis` (schema_validator.py lines
100-112): lowercase the analysis text, split into words, and keep exactly the
words that are keys of `schema['tables']`. -/
def extractTablesFromAnalysis (tableNames : List String) (analysis : String) : List String :=
  (pyWords (pyLower analysis)).filter (fun word => tableNames.contains word)

/-- `SchemaValidator.validate_analysis` (schema_validator.py lines 81-98):
return `False` as soon as an extracted table is not a key of
`schema['tables']`, else `True`. -/
def validateAnalysis (tableNames : List String) (analysis : String) : Bool :=
  (extractTablesFromAnalysis tableNames analysis).all (fun table => tableNames.contains table)

/-- Helper for Python `str.split(sep)` with a one-character separator. -/
def splitCharAux (sep : Char) : List Char → List Char → List String
  | cur, [] => [String.mk cur.reverse]
  | cur, c :: cs =>
    if c = sep then String.mk cur.reverse :: splitCharAux sep [] cs
    else splitCharAux sep (c :: cur) cs

/-- Python `str.split(sep)` for a one-character separator (empty pieces kept). -/
def pySplitChar (sep : Char) (s : String) : List String := splitCharAux sep [] s.data

/-- Python `str.strip()`: drop leading and trailing whitespace. -/
def pyStrip (s : String) : String :=
  String.mk (((s.data.dropWhile Char.isWhitespace).reverse.dropWhile Char.isWhitespace).reverse)

/-- `OllamaAnalyzer._extract_visualizations` (ollama.py lines 161-172): keep
each line of the response that contains one of `plot`, `chart`, `graph`
case-insensitively, stripped. -/
def extractVisualizations (text : String) : List String :=
  (pySplitChar (Char.ofNat 10) text).foldl
    (fun vizs line =>
      if ["plot", "chart", "graph"].any (fun v => pyIn v (pyLower line)) then
        vizs ++ [pyStrip line]
      else vizs)
    []

/-- The filtering loop of `OllamaAnalyzer.generate_visualization_suggestions`
(ollama.py lines 145-152): keep the extracted suggestions that pass
`SchemaValidator.validate_analysis`. -/
def filterValidVisualizations (tableNames : List String) (text : String) : List String :=
  (extractVisualizations text).filter (fun viz => validateAnalysis tableNames viz)

/-! ## Schema loading and the schema content hash

`AnalysisCache.get`/`store` derive the schema hash as
`hashlib.sha256(str(schema_validator.schema).encode()).hexdigest()` where the
schema is the nested dict built by `SchemaValidator._load_schema`.  `str` of a
Python dict renders entries in insertion order, so the hash input depends on
the reader's enumeration order. -/

/-- Everything the SQLAlchemy inspector reports for one table, in its
enumeration order, plus opaque `repr`s of the foreign-key dicts. -/
structure ReaderTable where
  name : String
  columns : List (String × String)
  primaryKey : List String
  foreignKeys : List String
deriving DecidableEq, Repr

/-- The database reader: the enumerated structure plus row contents (the row
contents are never consulted by schema loading). -/
structure Reader where
  tables : List ReaderTable
  rows : List (String × List String)
deriving DecidableEq, Repr

/-- The schema dict built by `SchemaValidator._load_schema` (schema_validator.py
lines 31-61): `tables` in enumeration order, and `foreign_keys` holding only
tables whose foreign-key list is nonempty.  (`relationships` and
`primary_keys` are initialized empty and never filled.) -/
structure Schema where
  tables : List SchemaTable
  foreignKeys : List (String × List String)
deriving DecidableEq, Repr

/-- `SchemaValidator._load_schema`: one pass over the enumerated tables,
recording columns and primary key, and recording foreign keys only when
nonempty (`if fks:`). -/
def loadSchema (r : Reader) : Schema :=
  r.tables.foldl
    (fun schema t =>
      let schema := { schema with tables := schema.tables ++ [⟨t.name, t.columns, t.primaryKey⟩] }
      if t.foreignKeys.isEmpty then schema
      else { schema with foreignKeys := schema.foreignKeys ++ [(t.name, t.foreignKeys)] })
    ⟨[], []⟩

/-- A single-quote character, for rendering Python `repr` of strings. -/
def sq : String := "\x27"

/-- Python `repr` of a plain identifier-like string: wrapped in single quotes. -/
def pyQuote (s : String) : String := sq ++ s ++ sq

/-- Python `str` of a dict, given each entry's key and already-rendered value:
entries in insertion order, `': '` between key and value, `', '` between
entries, surrounded by braces. -/
def pyDictStr (entries : List (String × String)) : String :=
  "\x7b" ++ String.intercalate ", " (entries.map (fun e => pyQuote e.1 ++ ": " ++ e.2)) ++ "\x7d"

/-- Python `str` of a list of already-rendered items. -/
def pyListStr (items : List String) : String :=
  "[" ++ String.intercalate ", " items ++ "]"

/-- Python `str` of one table's entry of the schema dict:
`\x7b'columns': \x7b...\x7d, 'primary_key': [...]\x7d`. -/
def tableDictStr (t : SchemaTable) : String :=
  pyDictStr
    [("columns", pyDictStr (t.columns.map (fun c => (c.1, pyQuote c.2)))),
     ("primary_key", pyListStr (t.primaryKey.map pyQuote))]

/-- Python `str(schema)` for the dict built by `_load_schema`: the four keys in
their insertion order, with `relationships` and `primary_keys` always empty. -/
def schemaStr (s : Schema) : String :=
  pyDictStr
    [("tables", pyDictStr (s.tables.map (fun t => (t.name, tableDictStr t)))),
     ("relationships", pyDictStr []),
     ("primary_keys", pyDictStr []),
     ("foreign_keys", pyDictStr (s.foreignKeys.map (fun f => (f.1, pyListStr f.2))))]

/-- SHA-256 hex digest, modelled as an injective function of the message: the
digest is represented by the message itself.  The development only ever
compares digests for equality, which for the real SHA-256 agrees with equality
of messages up to negligible collision probability. -/
def sha256Hex (s : String) : String := s

/-- The schema content hash computed in `AnalysisCache.get`/`store` (cache.py
lines 137 and 168): `sha256(str(schema))`. -/
def contentHash (s : Schema) : String := sha256Hex (schemaStr s)

/-- Lexicographic comparison of character lists by code point. -/
def charsLe : List Char → List Char → Bool
  | [], _ => true
  | _ :: _, [] => false
  | a :: as, b :: bs =>
    if a.toNat < b.toNat then true
    else if b.toNat < a.toNat then false
    else charsLe as bs

/-- Lexicographic string comparison, used only for canonicalization. -/
def strLe (a b : String) : Bool := charsLe a.data b.data

/-- Generic insertion into a list sorted by `le`. -/
def insertOrd (le : α → α → Bool) (x : α) : List α → List α
  | [] => [x]
  | y :: ys => if le x y then x :: y :: ys else y :: insertOrd le x ys

/-- Generic insertion sort by `le`. -/
def sortOrd (le : α → α → Bool) : List α → List α
  | [] => []
  | x :: xs => insertOrd le x (sortOrd le xs)

/-- Canonical form of a loaded schema, used only to state structural identity:
tables sorted by name with their columns sorted by column name, and the
foreign-key map sorted by table name.  Two loads are structurally identical
exactly when their canonical forms are equal. -/
def canonSchema (s : Schema) : Schema :=
  { tables :=
      (sortOrd (fun a b => strLe a.name b.name) s.tables).map
        (fun t => { t with columns := sortOrd (fun a b => strLe a.1 b.1) t.columns }),
    foreignKeys := sortOrd (fun a b => strLe a.1 b.1) s.foreignKeys }

/-! ## The persistent analysis cache (cache.py)

The cache directory is modelled as an association list from file name (the
hex cache key) to the stored file.  A stored file carries its modification
time, access time, byte size, and its content, which is either a parseable
analysis result or corrupt JSON. -/

/-- One analysis-result document, as `AnalysisCache.store` serializes it: the
`confidence` key may be absent (`'confidence' in result` is checked before the
gate), plus the `schema_valid` flag and the rest of the payload. -/
structure AnalysisResult where
  confidence : Option ℚ
  schemaValid : Bool
  payload : String
deriving DecidableEq, Repr

/-- Content of one cache file: a JSON document that parses to a result, or a
corrupt/unreadable document. -/
inductive FileContent where
  | corrupt
  | valid (result : AnalysisResult)
deriving DecidableEq, Repr

/-- One file in the cache directory. -/
structure StoredFile where
  mtime : Int
  atime : Int
  size : Nat
  content : FileContent
deriving DecidableEq, Repr

/-- The `_cache_stats` dictionary of `AnalysisCache`. -/
structure CacheStats where
  hits : Nat
  misses : Nat
  evictions : Nat
  currentSizeMb : ℚ
  invalidations : Nat
deriving DecidableEq, Repr

/-- The observable state of one `AnalysisCache`: the cache directory plus the
statistics dictionary. -/
structure CacheState where
  files : List (String × StoredFile)
  stats : CacheStats
deriving DecidableEq, Repr

/-- The cache configuration (`max_size_mb`, `max_age_seconds`,
`confidence_threshold`). -/
structure CacheConfig where
  maxSizeMb : Nat
  maxAgeSeconds : Int
  confidenceThreshold : ℚ

/-- File lookup in the cache directory. -/
def lookupFile (key : String) (files : List (String × StoredFile)) : Option StoredFile :=
  match files with
  | [] => none
  | f :: fs => if f.1 = key then some f.2 else lookupFile key fs

/-- `Path.unlink`: remove the file of that name. -/
def eraseFile (key : String) : List (String × StoredFile) → List (String × StoredFile)
  | [] => []
  | f :: fs => if f.1 = key then eraseFile key fs else f :: eraseFile key fs

/-- `open(cache_file, 'w')` + write: replace any file of that name. -/
def writeFile (key : String) (f : StoredFile) (files : List (String × StoredFile)) :
    List (String × StoredFile) :=
  eraseFile key files ++ [(key, f)]

/-- `AnalysisCache._get_cache_key` (cache.py lines 52-68):
`sha256(f"\x7banalysis_type\x7d_\x7bschema_hash\x7d_\x7bprompt\x7d")`. -/
def getCacheKey (prompt analysisType schemaHash : String) : String :=
  sha256Hex (analysisType ++ "_" ++ schemaHash ++ "_" ++ prompt)

/-- The cache key `analyze_database` derives (ollama.py line 74):
the prompt is `f"analyze_database_\x7bself.db_path.stem\x7d"`, the analysis
type is `database_analysis`, and the schema hash is `sha256(str(schema))`. -/
def analyzeDatabaseCacheKey (dbStem schemaSerialized : String) : String :=
  getCacheKey ("analyze_database_" ++ dbStem) "database_analysis" (sha256Hex schemaSerialized)

/-- `AnalysisCache._is_cache_valid` (cache.py lines 94-120): the file must
exist, its age `now - mtime` must not exceed `max_age_seconds`, it must parse,
and if it has a `confidence` key that confidence must not be below the
threshold. -/
def isCacheValid (cfg : CacheConfig) (now : Int) (file? : Option StoredFile) : Bool :=
  match file? with
  | none => false
  | some f =>
    if now - f.mtime > cfg.maxAgeSeconds then false
    else
      match f.content with
      | .corrupt => false
      | .valid r =>
        match r.confidence with
        | some c => if c < cfg.confidenceThreshold then false else true
        | none => true

/-- `AnalysisCache.get` (cache.py lines 122-152).  The schema hash is
`sha256(str(schema_validator.schema))`; on a valid entry the file is re-read
and returned as a hit; the re-read failure branch (which unlinks) mirrors the
source even though a valid entry always re-parses in a sequential run;
otherwise the entry is left in place and a miss is recorded. -/
def getOp (cfg : CacheConfig) (st : CacheState) (prompt analysisType schemaSerialized : String)
    (now : Int) : Option AnalysisResult × CacheState :=
  let schemaHash := sha256Hex schemaSerialized
  let key := getCacheKey prompt analysisType schemaHash
  let file? := lookupFile key st.files
  if isCacheValid cfg now file? then
    match file? with
    | some ⟨_, _, _, .valid r⟩ =>
      (some r, { st with stats := { st.stats with hits := st.stats.hits + 1 } })
    | _ =>
      (none,
       { files := eraseFile key st.files,
         stats := { st.stats with misses := st.stats.misses + 1 } })
  else
    (none, { st with stats := { st.stats with misses := st.stats.misses + 1 } })

/-- Total byte size of the cache directory
(`sum(f.stat().st_size for f in ...)`). -/
def totalSize (files : List (String × StoredFile)) : Nat :=
  (files.map (fun f => f.2.size)).sum

/-- Stable insertion by ascending access time. -/
def insertByAtime (e : String × StoredFile) : List (String × StoredFile) →
    List (String × StoredFile)
  | [] => [e]
  | x :: xs => if e.2.atime ≤ x.2.atime then e :: x :: xs else x :: insertByAtime e xs

/-- `sorted(files, key=lambda f: f.stat().st_atime)`: stable sort by ascending
access time. -/
def sortByAtime : List (String × StoredFile) → List (String × StoredFile)
  | [] => []
  | x :: xs => insertByAtime x (sortByAtime xs)

/-- The eviction loop of `AnalysisCache._check_cache_size` (cache.py lines
86-90): while the remaining total size exceeds the budget, unlink the file
with the oldest access time and count one eviction. -/
def evictLoop (budgetBytes : Nat) : List (String × StoredFile) →
    List (String × StoredFile) × Nat
  | [] => ([], 0)
  | x :: xs =>
    if totalSize (x :: xs) > budgetBytes then
      let r := evictLoop budgetBytes xs
      (r.1, r.2 + 1)
    else (x :: xs, 0)

/-- `AnalysisCache._check_cache_size` (cache.py lines 74-92) on the directory:
`current_size_mb > max_size_mb` (with `current_size_mb = bytes / 2^20`,
compared exactly over `ℚ`, i.e. `bytes > max_size_mb * 1048576`) triggers the
LRU eviction loop over the atime-sorted file list. -/
def checkCacheSize (maxSizeMb : Nat) (files : List (String × StoredFile)) :
    List (String × StoredFile) × Nat :=
  if totalSize files > maxSizeMb * 1048576 then
    evictLoop (maxSizeMb * 1048576) (sortByAtime files)
  else (files, 0)

/-- `AnalysisCache._check_cache_size` at the state level: evict, add the
evictions to the counter, and record the resulting size in MiB. -/
def checkCacheSizeState (cfg : CacheConfig) (st : CacheState) : CacheState :=
  let r := checkCacheSize cfg.maxSizeMb st.files
  { files := r.1,
    stats := { st.stats with
               evictions := st.stats.evictions + r.2,
               currentSizeMb := (totalSize r.1 : ℚ) / 1048576 } }

/-- `AnalysisCache.store` (cache.py lines 154-182).  On the success path the
result (with `schema_valid` recomputed from the prompt) is written to the
key's file and size enforcement runs.  When any step of the `try` block fails
(`writeFails = true`), the `except` handler unlinks whatever file currently
exists at the key's path — whether a partial write or a pre-existing complete
entry — and the statistics are untouched. -/
def storeOp (cfg : CacheConfig) (st : CacheState) (prompt analysisType : String)
    (result : AnalysisResult) (tableNames : List String) (schemaSerialized : String)
    (now : Int) (sizeBytes : Nat) (writeFails : Bool) : CacheState :=
  let key := getCacheKey prompt analysisType (sha256Hex schemaSerialized)
  if writeFails then
    { st with files := eraseFile key st.files }
  else
    let result := { result with schemaValid := validateAnalysis tableNames prompt }
    let files := writeFile key ⟨now, now, sizeBytes, .valid result⟩ st.files
    checkCacheSizeState cfg { st with files := files }

/-- `AnalysisCache.clear` (cache.py lines 188-194): unlink every file, set
`current_size_mb`, `evictions` and `invalidations` to zero, and leave `hits`
and `misses` as they are. -/
def clearOp (st : CacheState) : CacheState :=
  { files := [],
    stats := { st.stats with currentSizeMb := 0, evictions := 0, invalidations := 0 } }

/-- `AnalysisCache.get_stats` (cache.py lines 184-186). -/
def getStats (st : CacheState) : CacheStats := st.stats

/-! ## The shadowed `_calculate_confidence` (ollama.py lines 437-463)

The class body of `OllamaAnalyzer` contains two `def _calculate_confidence`
statements (lines 342 and 437).  A Python class body executes top to bottom
and the class dict keeps the last binding per name, so the later definition is
the one bound.  Its body builds an f-string that reads the names `table_name`
and `sample_data`, which are neither parameters (`self`, `response`) nor
module globals, so evaluating it raises `NameError`. -/

/-- The names bound at module level in ollama.py (imports and top-level
assignments), against which a failed local lookup falls back. -/
def ollamaModuleGlobals : List String :=
  ["requests", "OllamaConfig", "Dict", "List", "Optional", "Any", "Path", "json",
   "logging", "PROMPT_TEMPLATES", "format_prompt", "SchemaValidator", "AnalysisCache",
   "time", "logger", "OllamaAnalyzer"]

/-- Python name resolution inside a method body: local scope first, then the
module globals (builtins hold none of the names in question). -/
def resolvesName (localScope : List String) (n : String) : Bool :=
  localScope.contains n || ollamaModuleGlobals.contains n

/-- The message of the `NameError` raised on an unresolvable name. -/
def nameErrorMsg (n : String) : String :=
  "NameError: name " ++ sq ++ n ++ sq ++ " is not defined"

/-- The attributes an `OllamaConfig` instance exposes (config.py): the methods
defined in its class body plus the attributes assigned in `__init__`.  Neither
`get_validation_config` nor `get_cache_config` nor `get_sampling_config` is
among them, and the repository defines no subclass, no `__getattr__` and no
monkey-patch. -/
def ollamaConfigAttrs : List String :=
  ["__init__", "_load_config", "save_config", "get_config", "set_config",
   "get_model", "get_api_url", "config_file", "default_config", "config"]

/-- Python attribute lookup on an object with the given attribute names. -/
def pyHasAttr (attrs : List String) (name : String) : Bool :=
  attrs.contains name

/-- The message of the `AttributeError` raised on a missing attribute. -/
def attributeErrorMsg (cls attr : String) : String :=
  "AttributeError: " ++ sq ++ cls ++ sq ++ " object has no attribute " ++ sq ++ attr ++ sq

/-- The `self` state a bound `OllamaAnalyzer` method can consult: the loaded
schema tables, and the `strict_mode` value the (failing) validation-config
read would have produced (`validation_config.get('strict_mode', True)`). -/
structure OllamaSelf where
  strictMode : Bool
  tables : List SchemaTable

/-- A bound method of signature `(self, response: str)` that either returns a
confidence or raises. -/
def OllamaMethod := OllamaSelf → String → Except String ℚ

/-- The first `_calculate_confidence` (ollama.py lines 342-365) as a method
value.  Its first statement (line 353) is
`self.ollama_config.get_validation_config()`, an attribute lookup on
`OllamaConfig` that fails — the class defines no such attribute — so the call
raises `AttributeError` on every input; the schema-reference-counting
arithmetic of lines 354-365 (`calcConfidenceTail`) is never reached. -/
def calcConfidenceMethodV1 : OllamaMethod :=
  fun self response =>
    if pyHasAttr ollamaConfigAttrs "get_validation_config" then
      .ok (calcConfidenceTail self.strictMode self.tables response)
    else .error (attributeErrorMsg "OllamaConfig" "get_validation_config")

/-- The second `_calculate_confidence` (ollama.py lines 437-463) as a method
value: its local scope holds only `self` and `response`, but the first
expression of the body is an f-string reading `table_name` and then
`sample_data`; the first unresolvable name raises `NameError`.  (The branch in
which both names resolve would go on to call `_generate_response`, i.e.
network I/O; it is unreachable, since neither name resolves.) -/
def calcConfidenceMethodV2 : OllamaMethod :=
  fun _ _ =>
    let localScope := ["self", "response"]
    if resolvesName localScope "table_name" then
      if resolvesName localScope "sample_data" then
        .error "unreachable: _generate_response performs network I/O"
      else .error (nameErrorMsg "sample_data")
    else .error (nameErrorMsg "table_name")

/-- The two `_calculate_confidence` bindings of the `OllamaAnalyzer` class
body, in source order (lines 342 and 437). -/
def calcConfidenceBindings : List (String × OllamaMethod) :=
  [("_calculate_confidence", calcConfidenceMethodV1),
   ("_calculate_confidence", calcConfidenceMethodV2)]

/-- Execution of a class body: bindings are processed top to bottom and the
class dict keeps the last binding for each name. -/
def classAttrLookup (bindings : List (String × OllamaMethod)) (name : String) :
    Option OllamaMethod :=
  bindings.foldl (fun acc b => if b.1 = name then some b.2 else acc) none

/-- The `_calculate_confidence` attribute actually bound on `OllamaAnalyzer`. -/
def boundCalculateConfidence : Option OllamaMethod :=
  classAttrLookup calcConfidenceBindings "_calculate_confidence"

/-- The confidence-scoring tail of `OllamaAnalyzer._generate_response`
(ollama.py lines 421-431), given the text the API returned: every analysis
operation (visualization suggestions, analysis plans, data quality, research
questions, database analysis) scores its response through this path. -/
def generateResponseModel (self : OllamaSelf) (apiText : String) (now : Int) :
    Except String (String × ℚ × Bool × Int) :=
  match boundCalculateConfidence with
  | none => .error "AttributeError: _calculate_confidence"
  | some m =>
    match m self apiText with
    | .error e => .error e
    | .ok confidence => .ok (apiText, confidence, true, now)

/-! ## Concrete instances used in counterexamples and witnesses -/

/-- A reader enumerating `genes` before `samples`. -/
def readerGenesFirst : Reader :=
  ⟨[⟨"genes", [("id", "INTEGER"), ("name", "TEXT")], ["id"], []⟩,
    ⟨"samples", [("id", "INTEGER"), ("gene_id", "INTEGER")], ["id"], []⟩], []⟩

/-- The same structure enumerated in the opposite order, with different row
contents. -/
def readerSamplesFirst : Reader :=
  ⟨[⟨"samples", [("id", "INTEGER"), ("gene_id", "INTEGER")], ["id"], []⟩,
    ⟨"genes", [("id", "INTEGER"), ("name", "TEXT")], ["id"], []⟩], []⟩

/-- The same enumeration as `readerGenesFirst` but with different row
contents. -/
def readerGenesFirstRows : Reader :=
  ⟨[⟨"genes", [("id", "INTEGER"), ("name", "TEXT")], ["id"], []⟩,
    ⟨"samples", [("id", "INTEGER"), ("gene_id", "INTEGER")], ["id"], []⟩],
   [("genes", ["BRCA1", "TP53"])]⟩

/-- The default cache configuration (`max_size_mb=500`, `max_age_seconds=86400`,
`confidence_threshold=0.95`). -/
def cfgDefault : CacheConfig := ⟨500, 86400, mkRat 95 100⟩

/-- All-zero statistics, as `_initialize_cache` leaves them. -/
def zeroStats : CacheStats := ⟨0, 0, 0, 0, 0⟩

/-- A stored result whose confidence 0.96 passes the default threshold. -/
def resHigh : AnalysisResult := ⟨some (mkRat 96 100), true, "analysis payload"⟩

/-- A stored result whose confidence 0.50 is below the default threshold. -/
def resLow : AnalysisResult := ⟨some (mkRat 50 100), true, "low-confidence payload"⟩

/-- A cache holding one passing entry written at time 1000 for the
`database_analysis` request with prompt `p` and schema serialization `S`. -/
def stOneEntry : CacheState :=
  ⟨[(getCacheKey "p" "database_analysis" (sha256Hex "S"), ⟨1000, 1000, 50, .valid resHigh⟩)],
   zeroStats⟩

/-- The same cache, but the entry's confidence is below the threshold. -/
def stOneEntryLow : CacheState :=
  ⟨[(getCacheKey "p" "database_analysis" (sha256Hex "S"), ⟨1000, 1000, 50, .valid resLow⟩)],
   zeroStats⟩

/-- Three 600000-byte entries with strictly increasing access times: with a
1 MiB budget only the most recently accessed one fits. -/
def stThreeEntries : CacheState :=
  ⟨[("e1", ⟨0, 1, 600000, .valid resHigh⟩),
    ("e2", ⟨0, 2, 600000, .valid resHigh⟩),
    ("e3", ⟨0, 3, 600000, .valid resHigh⟩)], zeroStats⟩

/-- A 1 MiB cache budget with the default age and confidence settings. -/
def cfgSmall : CacheConfig := ⟨1, 86400, mkRat 95 100⟩

/-! ## Helper lemmas -/

/-- Folding a conditional increment counts the matching elements. -/
lemma foldl_count_eq (p : α → Bool) (l : List α) :
    ∀ n : Nat, l.foldl (fun c x => if p x then c + 1 else c) n = n + l.countP p := by
  induction l with
  | nil => intro n; simp
  | cons x xs ih =>
    intro n
    by_cases h : p x
    · simp [List.countP_cons, h, ih]
      omega
    · simp [List.countP_cons, h, ih]

/-- Folding the nested conditional increment over a table's columns counts the
matching pairs per table. -/
lemma foldl_nested_count (q : SchemaTable → String × String → Bool) (tables : List SchemaTable) :
    ∀ n : Nat,
      tables.foldl
        (fun c t => t.columns.foldl (fun c2 col => if q t col then c2 + 1 else c2) c) n
      = n + (tables.map (fun t => t.columns.countP (q t))).sum := by
  induction tables with
  | nil => intro n; simp
  | cons t ts ih =>
    intro n
    simp only [List.foldl_cons, List.map_cons, List.sum_cons]
    rw [foldl_count_eq, ih]
    omega

/-- `_count_schema_references` counts distinct present table names plus
distinct present `table.column` pairs. -/
lemma countSchemaReferences_eq (tables : List SchemaTable) (response : String) :
    countSchemaReferences tables response
      = distinctTableRefs tables response + distinctPairRefs tables response := by
  unfold countSchemaReferences distinctTableRefs distinctPairRefs
  rw [foldl_count_eq, foldl_nested_count]
  omega

/-- The confidence formula, written through the reference count. -/
lemma calcConfidenceTail_eq (strict : Bool) (tables : List SchemaTable) (response : String) :
    calcConfidenceTail strict tables response
      = pyMax 0 (pyMin 1 ((countSchemaReferences tables response : ℚ) / 10)
          * (if strict then 9 / 10 else 1)) := by
  unfold calcConfidenceTail
  cases strict <;> simp

/-- Clamping from below at zero yields a nonnegative value. -/
lemma pyMax_zero_nonneg (x : ℚ) : 0 ≤ pyMax 0 x := by
  unfold pyMax
  split_ifs with h
  · exact le_refl 0
  · exact (not_le.mp h).le

/-- Clamping from below at zero preserves an upper bound of one. -/
lemma pyMax_zero_le_one (x : ℚ) (hx : x ≤ 1) : pyMax 0 x ≤ 1 := by
  unfold pyMax
  split_ifs with h
  · exact zero_le_one
  · exact hx

/-- Capping at one from above yields a value at most one. -/
lemma pyMin_one_le_one (x : ℚ) : pyMin 1 x ≤ 1 := by
  unfold pyMin
  split_ifs with h
  · exact le_refl 1
  · exact (not_le.mp h).le

/-- The confidence is never negative. -/
lemma calcConfidenceTail_nonneg (strict : Bool) (tables : List SchemaTable) (response : String) :
    0 ≤ calcConfidenceTail strict tables response := by
  rw [calcConfidenceTail_eq]
  exact pyMax_zero_nonneg _

/-- The confidence is never above one. -/
lemma calcConfidenceTail_le_one (strict : Bool) (tables : List SchemaTable) (response : String) :
    calcConfidenceTail strict tables response ≤ 1 := by
  rw [calcConfidenceTail_eq]
  apply pyMax_zero_le_one
  cases strict with
  | false =>
    simpa using pyMin_one_le_one ((countSchemaReferences tables response : ℚ) / 10)
  | true =>
    rw [if_pos rfl]
    exact mul_le_one₀ (pyMin_one_le_one _) (by norm_num) (by norm_num)

/-- Looking up a key in a list from which that key was just unlinked finds
nothing. -/
lemma lookupFile_eraseFile_self (key : String) (files : List (String × StoredFile)) :
    lookupFile key (eraseFile key files) = none := by
  induction files with
  | nil => rfl
  | cons f fs ih =>
    by_cases h : f.1 = key
    · simp [eraseFile, h, ih]
    · simp [eraseFile, h, lookupFile, ih]

/-- Unlinking one key leaves lookups of every other key unchanged. -/
lemma lookupFile_eraseFile_other (k key : String) (hk : k ≠ key)
    (files : List (String × StoredFile)) :
    lookupFile k (eraseFile key files) = lookupFile k files := by
  induction files with
  | nil => rfl
  | cons f fs ih =>
    by_cases h : f.1 = key
    · have hfk : key ≠ k := fun hc => hk hc.symm
      simp [eraseFile, h, lookupFile, hfk, ih]
    · simp [eraseFile, h, lookupFile, ih]

/-- Inserting an element no later than every element of a list puts it in
front. -/
lemma insertByAtime_front (e : String × StoredFile) (l : List (String × StoredFile))
    (h : ∀ y ∈ l, e.2.atime ≤ y.2.atime) : insertByAtime e l = e :: l := by
  cases l with
  | nil => rfl
  | cons x xs =>
    unfold insertByAtime
    rw [if_pos (h x (List.mem_cons_self x xs))]

/-- Sorting by access time leaves a strictly increasing list unchanged. -/
lemma sortByAtime_sorted_id (l : List (String × StoredFile))
    (h : l.Pairwise (fun a b => a.2.atime < b.2.atime)) : sortByAtime l = l := by
  induction l with
  | nil => rfl
  | cons x xs ih =>
    rw [List.pairwise_cons] at h
    unfold sortByAtime
    rw [ih h.2]
    exact insertByAtime_front x xs (fun y hy => (h.1 y hy).le)

/-- The eviction loop removes exactly the shortest prefix whose removal brings
the total size within budget. -/
lemma evictLoop_drop (B : Nat) : ∀ (m : Nat) (l : List (String × StoredFile)),
    (∀ j, j < m → totalSize (l.drop j) > B) → totalSize (l.drop m) ≤ B →
    evictLoop B l = (l.drop m, m) := by
  intro m
  induction m with
  | zero =>
    intro l _ hle
    cases l with
    | nil => rfl
    | cons x xs =>
      unfold evictLoop
      rw [if_neg (not_lt.mpr (by simpa using hle))]
      rw [List.drop_zero]
  | succ m ih =>
    intro l hgt hle
    have h0 : totalSize l > B := by simpa using hgt 0 (Nat.succ_pos m)
    cases l with
    | nil => exact absurd h0 (by simp [totalSize])
    | cons x xs =>
      unfold evictLoop
      rw [if_pos h0]
      rw [ih xs (fun j hj => by simpa using hgt (j + 1) (Nat.succ_lt_succ hj))
        (by simpa using hle)]
      simp

/-- A `get` whose derived key holds a valid parseable entry is a hit: it
returns the parsed result and bumps `hits`. -/
lemma getOp_hit (cfg : CacheConfig) (st : CacheState)
    (prompt analysisType schemaSerialized : String) (now : Int)
    (f : StoredFile) (r : AnalysisResult)
    (hlook : lookupFile (getCacheKey prompt analysisType (sha256Hex schemaSerialized))
        st.files = some f)
    (hcontent : f.content = .valid r)
    (hvalid : isCacheValid cfg now (some f) = true) :
    getOp cfg st prompt analysisType schemaSerialized now
      = (some r, { st with stats := { st.stats with hits := st.stats.hits + 1 } }) := by
  obtain ⟨mt, a, sz, ct⟩ := f
  dsimp only at hcontent
  subst hcontent
  simp only [getOp]
  rw [hlook, hvalid]
  simp

/-- A `get` whose derived key fails validation is a miss: it returns nothing,
bumps `misses`, and leaves the files unchanged. -/
lemma getOp_miss (cfg : CacheConfig) (st : CacheState)
    (prompt analysisType schemaSerialized : String) (now : Int)
    (hvalid : isCacheValid cfg now
        (lookupFile (getCacheKey prompt analysisType (sha256Hex schemaSerialized))
          st.files) = false) :
    getOp cfg st prompt analysisType schemaSerialized now
      = (none, { st with stats := { st.stats with misses := st.stats.misses + 1 } }) := by
  simp only [getOp]
  rw [hvalid]
  simp

/-! ## Claims -/

/-- C1 (counterexample): on the spec's own scenario — schema `genes`,
`samples`, a text mentioning the two table names 12 times in total, strict
mode on — the program does not score 0.9: the first `_calculate_confidence`
(the claim's cited range) raises `AttributeError` at its opening read of
`self.ollama_config.get_validation_config()`, the definition actually bound
on the class (the later duplicate) raises `NameError`, and even the dead
arithmetic tail of the first definition would yield 0.18, not 0.9, because
`_count_schema_references` counts each schema element at most once (2 here),
not the 12 occurrences. -/
theorem c1_counterexample :
    calcConfidenceMethodV1 ⟨true, genesSamplesTables⟩ twelveMentions
      = .error (attributeErrorMsg "OllamaConfig" "get_validation_config")
    ∧ calcConfidenceMethodV2 ⟨true, genesSamplesTables⟩ twelveMentions
      = .error (nameErrorMsg "table_name")
    ∧ calcConfidenceTail true genesSamplesTables twelveMentions ≠ 9 / 10 := by
  refine ⟨rfl, rfl, ?_⟩
  have h : countSchemaReferences genesSamplesTables twelveMentions = 2 := by decide
  have he : calcConfidenceTail true genesSamplesTables twelveMentions = 9 / 50 := by
    unfold calcConfidenceTail
    rw [h]
    norm_num [pyMin, pyMax]
  rw [he]
  norm_num

/-- C1 (amended): no generated text ever receives the claimed confidence.
Every call to the first `_calculate_confidence` raises `AttributeError`,
because its first statement reads `self.ollama_config.get_validation_config()`
and `OllamaConfig` defines no such attribute (the bound method is in any case
the later shadowing duplicate, which raises `NameError` — claim C10).  Had the
config read succeeded, the remaining arithmetic (lines 354-365) computes
`max(0, min(1, d/10) * (0.9 if strict else 1))` where `d` counts the distinct
known table names plus the distinct known `table.column` pairs occurring
case-insensitively in the text (each at most once, not total occurrences);
that value always lies in `[0, 1]` and equals 0.18, not 0.9, on the
genes/samples scenario under strict mode. -/
theorem c1_amended :
    (∀ (self : OllamaSelf) (response : String),
        calcConfidenceMethodV1 self response
          = .error (attributeErrorMsg "OllamaConfig" "get_validation_config"))
    ∧ (∀ (strict : Bool) (tables : List SchemaTable) (response : String),
        calcConfidenceTail strict tables response
          = pyMax 0 (pyMin 1
              (((distinctTableRefs tables response + distinctPairRefs tables response : ℕ) : ℚ) / 10)
              * (if strict then 9 / 10 else 1))
        ∧ 0 ≤ calcConfidenceTail strict tables response
        ∧ calcConfidenceTail strict tables response ≤ 1)
    ∧ calcConfidenceTail true genesSamplesTables twelveMentions = 9 / 50 := by
  refine ⟨fun _ _ => rfl, ?_, ?_⟩
  · intro strict tables response
    refine ⟨?_, calcConfidenceTail_nonneg strict tables response,
      calcConfidenceTail_le_one strict tables response⟩
    rw [calcConfidenceTail_eq, countSchemaReferences_eq]
  · have h : countSchemaReferences genesSamplesTables twelveMentions = 2 := by decide
    unfold calcConfidenceTail
    rw [h]
    norm_num [pyMin, pyMax]

/-- C2: `SchemaValidator.validate_analysis` is vacuously true — the extraction
step only ever returns words that already are schema tables, so the
nonexistence check can never fire — and consequently a visualization
suggestion referencing the nonexistent table `unknown_table` passes the
filter and is returned in the structured list. -/
theorem c2_fragment_filtering_vacuous :
    (∀ (tableNames : List String) (analysis : String),
        validateAnalysis tableNames analysis = true)
    ∧ filterValidVisualizations ["genes", "samples"]
        "scatter plot of unknown_table expression"
      = ["scatter plot of unknown_table expression"] := by
  constructor
  · intro tns a
    unfold validateAnalysis extractTablesFromAnalysis
    rw [List.all_eq_true]
    intro x hx
    exact List.of_mem_filter hx
  · decide

/-- C3 (counterexample): two loads of the structurally identical genes/samples
schema, enumerated in opposite orders, have equal canonical forms but
different content hashes — `str(schema)` serializes dict entries in insertion
order and nothing is sorted before hashing. -/
theorem c3_counterexample :
    canonSchema (loadSchema readerGenesFirst) = canonSchema (loadSchema readerSamplesFirst)
    ∧ contentHash (loadSchema readerGenesFirst) ≠ contentHash (loadSchema readerSamplesFirst) :=
  ⟨by decide, by decide⟩

/-- C3 (amended): the content hash is a deterministic function of the reader's
structural enumeration (tables, columns, keys in enumeration order) and is
independent of row contents; it is not invariant under reordering that
enumeration. -/
theorem c3_amended (r1 r2 : Reader) (h : r1.tables = r2.tables) :
    contentHash (loadSchema r1) = contentHash (loadSchema r2) := by
  have hs : loadSchema r1 = loadSchema r2 := by
    unfold loadSchema
    rw [h]
  rw [hs]

/-- C3 witness: two readers with the same structural enumeration but different
row contents hash identically. -/
theorem c3_amended_witness :
    readerGenesFirst.tables = readerGenesFirstRows.tables
    ∧ contentHash (loadSchema readerGenesFirst) = contentHash (loadSchema readerGenesFirstRows) :=
  ⟨rfl, c3_amended readerGenesFirst readerGenesFirstRows rfl⟩

/-- C4 (counterexample): two logically identical `analyze_database` requests
against database files `experiment_a.db` and `experiment_b.db` with the very
same schema derive different cache keys, because the cached prompt embeds the
database file's stem. -/
theorem c4_counterexample :
    analyzeDatabaseCacheKey "experiment_a" (schemaStr (loadSchema readerGenesFirst))
      ≠ analyzeDatabaseCacheKey "experiment_b" (schemaStr (loadSchema readerGenesFirst)) := by
  decide

/-- C4 (amended): cache-key derivation is a pure deterministic function of
(analysis type, schema hash, prompt), but the `analyze_database` prompt embeds
the database file stem: with the same schema serialization, the derived keys
agree exactly when the file stems agree. -/
theorem c4_amended (stem1 stem2 schemaSerialized : String) :
    analyzeDatabaseCacheKey stem1 schemaSerialized
      = analyzeDatabaseCacheKey stem2 schemaSerialized ↔ stem1 = stem2 := by
  constructor
  · intro h
    unfold analyzeDatabaseCacheKey getCacheKey sha256Hex at h
    have h2 := congrArg String.data h
    simp only [String.data_append] at h2
    have h3 := List.append_cancel_left h2
    have h4 := List.append_cancel_left h3
    cases stem1
    cases stem2
    exact congrArg String.mk h4
  · intro h
    rw [h]

/-- C5 (counterexample): an entry written at `T = 1000` with
`max_age = 86400` is absent at `T + max_age + 1`, but — contrary to the claim
— `get` does not delete it: the expired file is still on disk afterwards. -/
theorem c5_counterexample :
    (getOp cfgDefault stOneEntry "p" "database_analysis" "S" (1000 + 86400 + 1)).1 = none
    ∧ lookupFile (getCacheKey "p" "database_analysis" (sha256Hex "S"))
        (getOp cfgDefault stOneEntry "p" "database_analysis" "S" (1000 + 86400 + 1)).2.files
      = some ⟨1000, 1000, 50, .valid resHigh⟩ :=
  ⟨by decide, by decide⟩

/-- C5 (amended): an entry written at time `T` with sufficient confidence is
returned by `get` at `T + max_age - 1`; at `T + max_age + 1` it is absent,
but the expired file is left in the store untouched rather than purged. -/
theorem c5_amended (cfg : CacheConfig) (stats : CacheStats)
    (prompt analysisType schemaSerialized payload : String)
    (T : Int) (sizeB : Nat) (c : ℚ) (rest : List (String × StoredFile))
    (hconf : cfg.confidenceThreshold ≤ c) :
    (getOp cfg
        ⟨(getCacheKey prompt analysisType (sha256Hex schemaSerialized),
          ⟨T, T, sizeB, .valid ⟨some c, true, payload⟩⟩) :: rest, stats⟩
        prompt analysisType schemaSerialized (T + cfg.maxAgeSeconds - 1)).1
      = some ⟨some c, true, payload⟩
    ∧ (getOp cfg
        ⟨(getCacheKey prompt analysisType (sha256Hex schemaSerialized),
          ⟨T, T, sizeB, .valid ⟨some c, true, payload⟩⟩) :: rest, stats⟩
        prompt analysisType schemaSerialized (T + cfg.maxAgeSeconds + 1)).1 = none
    ∧ (getOp cfg
        ⟨(getCacheKey prompt analysisType (sha256Hex schemaSerialized),
          ⟨T, T, sizeB, .valid ⟨some c, true, payload⟩⟩) :: rest, stats⟩
        prompt analysisType schemaSerialized (T + cfg.maxAgeSeconds + 1)).2.files
      = (getCacheKey prompt analysisType (sha256Hex schemaSerialized),
          ⟨T, T, sizeB, .valid ⟨some c, true, payload⟩⟩) :: rest := by
  have hlook : lookupFile (getCacheKey prompt analysisType (sha256Hex schemaSerialized))
      (((getCacheKey prompt analysisType (sha256Hex schemaSerialized),
        (⟨T, T, sizeB, .valid ⟨some c, true, payload⟩⟩ : StoredFile))) :: rest)
      = some ⟨T, T, sizeB, .valid ⟨some c, true, payload⟩⟩ := by
    unfold lookupFile
    rw [if_pos rfl]
  have hfresh : isCacheValid cfg (T + cfg.maxAgeSeconds - 1)
      (some ⟨T, T, sizeB, .valid ⟨some c, true, payload⟩⟩) = true := by
    unfold isCacheValid
    dsimp only
    rw [if_neg (by omega : ¬ (T + cfg.maxAgeSeconds - 1 - T > cfg.maxAgeSeconds))]
    rw [if_neg (not_lt.mpr hconf)]
  have hstale : isCacheValid cfg (T + cfg.maxAgeSeconds + 1)
      (some ⟨T, T, sizeB, .valid ⟨some c, true, payload⟩⟩) = false := by
    unfold isCacheValid
    dsimp only
    rw [if_pos (by omega : T + cfg.maxAgeSeconds + 1 - T > cfg.maxAgeSeconds)]
  refine ⟨?_, ?_, ?_⟩
  · rw [getOp_hit cfg _ prompt analysisType schemaSerialized (T + cfg.maxAgeSeconds - 1)
      ⟨T, T, sizeB, .valid ⟨some c, true, payload⟩⟩ ⟨some c, true, payload⟩ hlook rfl hfresh]
  · rw [getOp_miss cfg _ prompt analysisType schemaSerialized (T + cfg.maxAgeSeconds + 1)
      (by rw [hlook]; exact hstale)]
  · rw [getOp_miss cfg _ prompt analysisType schemaSerialized (T + cfg.maxAgeSeconds + 1)
      (by rw [hlook]; exact hstale)]

/-- C5 witness: the amended behavior at concrete inputs — the fresh read hits,
the read one second past expiry misses and leaves the file present. -/
theorem c5_amended_witness :
    cfgDefault.confidenceThreshold ≤ mkRat 96 100
    ∧ ((getOp cfgDefault
        ⟨[(getCacheKey "p" "database_analysis" (sha256Hex "S"),
           ⟨1000, 1000, 50, .valid ⟨some (mkRat 96 100), true, "analysis payload"⟩⟩)], zeroStats⟩
        "p" "database_analysis" "S" (1000 + cfgDefault.maxAgeSeconds - 1)).1
      = some ⟨some (mkRat 96 100), true, "analysis payload"⟩
    ∧ (getOp cfgDefault
        ⟨[(getCacheKey "p" "database_analysis" (sha256Hex "S"),
           ⟨1000, 1000, 50, .valid ⟨some (mkRat 96 100), true, "analysis payload"⟩⟩)], zeroStats⟩
        "p" "database_analysis" "S" (1000 + cfgDefault.maxAgeSeconds + 1)).1 = none
    ∧ (getOp cfgDefault
        ⟨[(getCacheKey "p" "database_analysis" (sha256Hex "S"),
           ⟨1000, 1000, 50, .valid ⟨some (mkRat 96 100), true, "analysis payload"⟩⟩)], zeroStats⟩
        "p" "database_analysis" "S" (1000 + cfgDefault.maxAgeSeconds + 1)).2.files
      = [(getCacheKey "p" "database_analysis" (sha256Hex "S"),
          ⟨1000, 1000, 50, .valid ⟨some (mkRat 96 100), true, "analysis payload"⟩⟩)]) :=
  ⟨by decide,
   c5_amended cfgDefault zeroStats "p" "database_analysis" "S" "analysis payload"
     1000 50 (mkRat 96 100) [] (by decide)⟩

/-- C6: an entry whose stored confidence is strictly below the configured
threshold is never returned by `get`, regardless of its age. -/
theorem c6_confidence_gate (cfg : CacheConfig) (st : CacheState)
    (prompt analysisType schemaSerialized : String) (now : Int)
    (f : StoredFile) (r : AnalysisResult) (c : ℚ)
    (hlook : lookupFile (getCacheKey prompt analysisType (sha256Hex schemaSerialized))
        st.files = some f)
    (hcontent : f.content = .valid r)
    (hc : r.confidence = some c)
    (hlt : c < cfg.confidenceThreshold) :
    (getOp cfg st prompt analysisType schemaSerialized now).1 = none := by
  have hv : isCacheValid cfg now (some f) = false := by
    obtain ⟨mt, a, sz, ct⟩ := f
    dsimp only at hcontent
    subst hcontent
    obtain ⟨rc, rsv, rp⟩ := r
    dsimp only at hc
    subst hc
    unfold isCacheValid
    dsimp only
    split_ifs with hage
    · rfl
    · rfl
  rw [getOp_miss cfg st prompt analysisType schemaSerialized now (by rw [hlook]; exact hv)]

/-- C6 witness: a fresh entry with confidence 0.50 against the default 0.95
threshold is not returned. -/
theorem c6_witness :
    mkRat 50 100 < cfgDefault.confidenceThreshold
    ∧ (getOp cfgDefault stOneEntryLow "p" "database_analysis" "S" 1000).1 = none :=
  ⟨by decide,
   c6_confidence_gate cfgDefault stOneEntryLow "p" "database_analysis" "S" 1000
     ⟨1000, 1000, 50, .valid resLow⟩ resLow (mkRat 50 100) (by decide) rfl rfl (by decide)⟩

/-- C7: with entries in strictly increasing access-time order and a budget
that exactly the last entries fit, size enforcement evicts precisely the
`m` least-recently-accessed entries, adds `m` to the evictions counter, and
leaves the total size within budget. -/
theorem c7_lru_eviction (cfg : CacheConfig) (st : CacheState) (m : Nat)
    (hsorted : st.files.Pairwise (fun a b => a.2.atime < b.2.atime))
    (hgt : ∀ j, j < m → totalSize (st.files.drop j) > cfg.maxSizeMb * 1048576)
    (hle : totalSize (st.files.drop m) ≤ cfg.maxSizeMb * 1048576) :
    (checkCacheSizeState cfg st).files = st.files.drop m
    ∧ (checkCacheSizeState cfg st).stats.evictions = st.stats.evictions + m
    ∧ totalSize (checkCacheSizeState cfg st).files ≤ cfg.maxSizeMb * 1048576 := by
  have hcheck : checkCacheSize cfg.maxSizeMb st.files = (st.files.drop m, m) := by
    unfold checkCacheSize
    by_cases h0 : totalSize st.files > cfg.maxSizeMb * 1048576
    · rw [if_pos h0, sortByAtime_sorted_id st.files hsorted]
      exact evictLoop_drop _ m st.files hgt hle
    · rw [if_neg h0]
      have hm : m = 0 := by
        by_contra hmne
        exact h0 (by simpa using hgt 0 (Nat.pos_of_ne_zero hmne))
      subst hm
      rw [List.drop_zero]
  refine ⟨?_, ?_, ?_⟩
  · unfold checkCacheSizeState
    rw [hcheck]
  · unfold checkCacheSizeState
    rw [hcheck]
  · unfold checkCacheSizeState
    rw [hcheck]
    exact hle

/-- C7 witness: three 600000-byte entries with access times 1 < 2 < 3 under a
1 MiB budget — the two oldest are evicted, `evictions` rises by 2, and the
remaining 600000 bytes fit the budget. -/
theorem c7_witness :
    stThreeEntries.files.Pairwise (fun a b => a.2.atime < b.2.atime)
    ∧ ((checkCacheSizeState cfgSmall stThreeEntries).files = stThreeEntries.files.drop 2
    ∧ (checkCacheSizeState cfgSmall stThreeEntries).stats.evictions
        = stThreeEntries.stats.evictions + 2
    ∧ totalSize (checkCacheSizeState cfgSmall stThreeEntries).files
        ≤ cfgSmall.maxSizeMb * 1048576) :=
  ⟨by decide,
   c7_lru_eviction cfgSmall stThreeEntries 2 (by decide)
     (fun j hj => by interval_cases j <;> decide) (by decide)⟩

/-- C8 (counterexample): a complete entry exists for the key before a failed
`store`; after the failure the `except` handler has unlinked the key's file,
so the prior complete entry is gone — the store is not left in its prior
state. -/
theorem c8_counterexample :
    lookupFile (getCacheKey "p" "database_analysis" (sha256Hex "S")) stOneEntry.files
      = some ⟨1000, 1000, 50, .valid resHigh⟩
    ∧ lookupFile (getCacheKey "p" "database_analysis" (sha256Hex "S"))
        (storeOp cfgDefault stOneEntry "p" "database_analysis" resHigh ["genes"] "S"
          2000 60 true).files
      = none :=
  ⟨by decide, by decide⟩

/-- C8 (amended): a failed `store` removes the key's file entirely — no
partial entry survives, but neither does a pre-existing complete entry — and
every other key and the statistics are untouched. -/
theorem c8_amended (cfg : CacheConfig) (st : CacheState) (prompt analysisType : String)
    (result : AnalysisResult) (tableNames : List String) (schemaSerialized : String)
    (now : Int) (sizeB : Nat) :
    lookupFile (getCacheKey prompt analysisType (sha256Hex schemaSerialized))
      (storeOp cfg st prompt analysisType result tableNames schemaSerialized
        now sizeB true).files = none
    ∧ (∀ k, k ≠ getCacheKey prompt analysisType (sha256Hex schemaSerialized) →
        lookupFile k
          (storeOp cfg st prompt analysisType result tableNames schemaSerialized
            now sizeB true).files
          = lookupFile k st.files)
    ∧ (storeOp cfg st prompt analysisType result tableNames schemaSerialized
        now sizeB true).stats = st.stats := by
  unfold storeOp
  rw [if_pos rfl]
  exact ⟨lookupFile_eraseFile_self _ st.files,
    fun k hk => lookupFile_eraseFile_other k _ hk st.files, rfl⟩

/-- C8 witness: the amended behavior at concrete inputs — the key's prior
complete entry is gone after the failed write, a different key is
unaffected. -/
theorem c8_amended_witness :
    "other" ≠ getCacheKey "p" "database_analysis" (sha256Hex "S")
    ∧ (lookupFile (getCacheKey "p" "database_analysis" (sha256Hex "S"))
        (storeOp cfgDefault stOneEntry "p" "database_analysis" resHigh ["genes"] "S"
          2000 60 true).files = none
    ∧ lookupFile "other"
        (storeOp cfgDefault stOneEntry "p" "database_analysis" resHigh ["genes"] "S"
          2000 60 true).files
      = lookupFile "other" stOneEntry.files) :=
  ⟨by decide,
   (c8_amended cfgDefault stOneEntry "p" "database_analysis" resHigh ["genes"] "S" 2000 60).1,
   (c8_amended cfgDefault stOneEntry "p" "database_analysis" resHigh ["genes"] "S" 2000 60).2.1
     "other" (by decide)⟩

/-- C9: `clear()` removes every entry and resets `evictions` and
`invalidations` to zero while leaving `hits` and `misses` unchanged. -/
theorem c9_clear_counters (st : CacheState) :
    (clearOp st).files = []
    ∧ (clearOp st).stats.evictions = 0
    ∧ (clearOp st).stats.invalidations = 0
    ∧ (clearOp st).stats.hits = st.stats.hits
    ∧ (clearOp st).stats.misses = st.stats.misses :=
  ⟨rfl, rfl, rfl, rfl, rfl⟩

/-- C10: the class body binds `_calculate_confidence` to the later duplicate
definition, whose body reads the out-of-scope names `table_name` and
`sample_data` and therefore raises `NameError` on every input instead of
returning a confidence; hence the confidence-scoring path of
`_generate_response`, shared by every analysis operation, fails on every
input. -/
theorem c10_shadowed_confidence_raises :
    boundCalculateConfidence = some calcConfidenceMethodV2
    ∧ (∀ (self : OllamaSelf) (response : String),
        calcConfidenceMethodV2 self response = .error (nameErrorMsg "table_name"))
    ∧ (∀ (self : OllamaSelf) (apiText : String) (now : Int),
        generateResponseModel self apiText now = .error (nameErrorMsg "table_name")) :=
  ⟨rfl, fun _ _ => rfl, fun _ _ _ => rfl⟩

end BiodbAnalyzer
